import Mathlib

/-!
Shallow embedding of the honeypot service (src/main.py and src/agent.py):
the input normalizer, the intelligence extractor, the threat scorer, the
reply pipeline and the callback reporter, together with theorems checking
the claims of the specification against the embedded code.
-/

namespace Honeypot

/-- JSON values: the shape of a parsed request body (`await request.json()`). -/
inductive Json where
  | null : Json
  | bool (b : Bool) : Json
  | num (n : Int) : Json
  | str (s : String) : Json
  | arr (items : List Json) : Json
  | obj (fields : List (String × Json)) : Json

/-- Python `dict.get(k)` on a parsed JSON object (keys are unique after parsing,
so first-match lookup agrees with dict semantics). -/
def dictGet (fields : List (String × Json)) (k : String) : Option Json :=
  match fields with
  | [] => none
  | (k2, v) :: rest => if k2 == k then some v else dictGet rest k

/-- Python `k in data` for a dict. -/
def hasKey (fields : List (String × Json)) (k : String) : Bool :=
  (dictGet fields k).isSome

/-- Indicator record returned by the extractor (src/agent.py lines 58-62) and
defaulted in the handler (src/main.py line 122). -/
structure Intel where
  upiIds : List String
  phishingLinks : List String
  phoneNumbers : List String
deriving DecidableEq

/-- The default intelligence record of the handler (src/main.py line 122). -/
def emptyIntel : Intel := ⟨[], [], []⟩

/-- src/main.py line 31: configured key (environment default). -/
def API_KEY : String := "hackathon_secret_123"

/-- src/main.py line 32. -/
def CALLBACK_URL : String := "https://hackathon.guvi.in/api/updateHoneyPotFinalResult"

/-- src/main.py lines 97: session id resolution
`data.get("sessionId", data.get("session_id", "default_session"))`. -/
def resolveSessionId (data : List (String × Json)) : Json :=
  (dictGet data "sessionId").getD ((dictGet data "session_id").getD (Json.str "default_session"))

/-- src/main.py lines 99-106: user-text resolution. `user_text` starts as
`"Hello"`; a present `message` key is examined first (nested dict: its `text`
with default `"Hello"`; plain string: itself; any other type leaves the
default), and only when `message` is absent is the top-level `text` consulted. -/
def resolveUserText (data : List (String × Json)) : Json :=
  match dictGet data "message" with
  | some (Json.obj m) => (dictGet m "text").getD (Json.str "Hello")
  | some (Json.str s) => Json.str s
  | some _ => Json.str "Hello"
  | none =>
    match dictGet data "text" with
    | some v => v
    | none => Json.str "Hello"

/-- src/main.py lines 112-117: history extraction. Each dict entry of a
`conversationHistory` list contributes `item.get("text", "")`; non-dict
entries are skipped; a missing or non-list field yields `[]`. -/
def extractHistory (data : List (String × Json)) : List Json :=
  match dictGet data "conversationHistory" with
  | some (Json.arr items) =>
    items.filterMap fun item =>
      match item with
      | Json.obj m => some ((dictGet m "text").getD (Json.str ""))
      | _ => none
  | _ => []

/-- Modelled from the spec (§4.1 and the amended reading of claim C2): the text
resolution as a prioritized list of extractors tried in order, falling back
to the fixed default. First extractor: the `message` field (nested dict ⇒ its
`text` with default `"Hello"`, string ⇒ itself, other type ⇒ `"Hello"`);
second extractor: the top-level `text` field. -/
def extractorMessage (data : List (String × Json)) : Option Json :=
  match dictGet data "message" with
  | some (Json.obj m) => some ((dictGet m "text").getD (Json.str "Hello"))
  | some (Json.str s) => some (Json.str s)
  | some _ => some (Json.str "Hello")
  | none => none

/-- Second strategy of the amended precedence chain: the top-level `text` field. -/
def extractorText (data : List (String × Json)) : Option Json :=
  dictGet data "text"

/-- Try a list of extractors in priority order; first `some` wins. -/
def firstSomeJson (extractors : List (List (String × Json) → Option Json))
    (data : List (String × Json)) : Option Json :=
  match extractors with
  | [] => none
  | e :: rest =>
    match e data with
    | some v => some v
    | none => firstSomeJson rest data

/-- The amended precedence chain for the message text:
`message` strategy → top-level `text` strategy → default `"Hello"`. -/
def amendedTextChain (data : List (String × Json)) : Json :=
  (firstSomeJson [extractorMessage, extractorText] data).getD (Json.str "Hello")

/-- The payload built by `send_callback_task` (src/main.py lines 53-65). -/
structure ReportPayload where
  sessionId : Json
  scamDetected : Bool
  totalMessagesExchanged : Nat
  bankAccounts : List String
  upiIds : List String
  phishingLinks : List String
  phoneNumbers : List String
  suspiciousKeywords : List String
  agentNotes : String

/-- src/main.py lines 46-72: the reporter. `none` models the early return
(no network call); `some payload` models one POST of `payload` to the
callback URL. `notes[:50]` is the first 50 characters of the reply. -/
def send_callback_task (session_id : Json) (total_msgs : Nat) (intel : Intel)
    (score : Int) (notes : String) : Option ReportPayload :=
  if score < 10 then none
  else some {
    sessionId := session_id
    scamDetected := decide (50 < score)
    totalMessagesExchanged := total_msgs
    bankAccounts := []
    upiIds := intel.upiIds
    phishingLinks := intel.phishingLinks
    phoneNumbers := intel.phoneNumbers
    suspiciousKeywords := ["urgent", "pay"]
    agentNotes := "Score: " ++ toString score ++ ". Reply: " ++ String.mk (notes.data.take 50)
  }

/-- The background job queued by the handler (src/main.py line 136): the
exact arguments later passed to `send_callback_task`. -/
structure ReportJob where
  session_id : Json
  total_msgs : Nat
  intel : Intel
  score : Int
  notes : String

/-- The caller-visible part of the handler response (src/main.py lines
139-160; constant fields and wall-clock timestamps omitted) together with
the queued report job. -/
structure HandlerResponse where
  reply : String
  scamDetected : Bool
  session_id : Json
  upiIds : List String
  phishingLinks : List String
  phoneNumbers : List String
  job : ReportJob

/-- src/main.py lines 76-163: `universal_handler`. `body = none` models an
unparseable request body (the parse error is caught and `data = {}`,
lines 88-94); `body = some j` models a body that parsed to `j`. The agent
call (line 127) is a collaborator boundary: `agent_result` is its outcome,
`Except.error` modelling a raised exception (caught at lines 129-131).
A parsed non-dict body makes `data.get` at line 97 raise `AttributeError`,
which nothing in the handler catches, modelled as `Except.error`. The key
comparison at lines 84-85 only emits a log line and has no other effect. -/
def universal_handler (x_api_key : Option String) (body : Option Json)
    (agent_active : Bool) (agent_result : Except String (String × Int × Intel)) :
    Except String HandlerResponse :=
  let _key_mismatch := x_api_key != some API_KEY
  match body.getD (Json.obj []) with
  | Json.obj fields =>
    let session_id := resolveSessionId fields
    let user_text := resolveUserText fields
    let _ := user_text
    let history := extractHistory fields
    let res :=
      if agent_active then
        match agent_result with
        | Except.ok rsi => rsi
        | Except.error _ => ("Internet slow. Please repeat?", 0, emptyIntel)
      else ("I am a bit confused, why do I need to pay?", 0, emptyIntel)
    let bot_reply := res.1
    let score := res.2.1
    let intel := res.2.2
    Except.ok {
      reply := bot_reply
      scamDetected := decide (50 < score)
      session_id := session_id
      upiIds := intel.upiIds
      phishingLinks := intel.phishingLinks
      phoneNumbers := intel.phoneNumbers
      job := {
        session_id := session_id
        total_msgs := history.length + 1
        intel := intel
        score := score
        notes := bot_reply
      }
    }
  | _ => Except.error "AttributeError: object has no attribute get"

/-- Regular-expression syntax: the fragment used by the three patterns of
`extract_intelligence` (character classes, concatenation, alternation, and
greedy bounded repetition `\x7blo,hi\x7d`). -/
inductive RE where
  | eps : RE
  | cls (p : Char → Bool) : RE
  | seq (a b : RE) : RE
  | alt (a b : RE) : RE
  | rep (r : RE) (lo hi : Nat) : RE

/-- Backtracking matcher, Python `re` semantics: returns the list of suffixes
left after a match starting at the head of `s`, in engine preference
order (greedy repetition tries more iterations first; alternation tries the
left branch first), so the head of the result is the match Python commits to.
`fuel` bounds recursion depth only (one unit per constructor unfolding along
a path); with ample fuel the value is fuel-independent. -/
def reMatchF : Nat → RE → List Char → List (List Char)
  | 0, _, _ => []
  | _ + 1, RE.eps, s => [s]
  | _ + 1, RE.cls p, s =>
    match s with
    | [] => []
    | c :: rest => if p c then [rest] else []
  | f + 1, RE.seq a b, s => (reMatchF f a s).flatMap fun t => reMatchF f b t
  | f + 1, RE.alt a b, s => reMatchF f a s ++ reMatchF f b s
  | f + 1, RE.rep r lo hi, s =>
    match hi with
    | 0 => if lo == 0 then [s] else []
    | hi' + 1 =>
      let tails := (reMatchF f r s).flatMap fun t => reMatchF f (RE.rep r (lo - 1) hi') t
      if lo == 0 then tails ++ [s] else tails

/-- Depth budget for one match attempt on suffix `s`: each repetition step
consumes at most a constant amount of fuel per consumed character, plus the
pattern's own nesting, so this bound is far more than any attempt can use. -/
def matchFuel (s : List Char) : Nat := 8 * s.length + 4096

/-- Python `re.findall` driver for patterns that never match the empty string:
scan left to right, at each position commit to the first match of the engine and
continue after it, otherwise advance one character. The fuel argument is an
upper bound on the number of scan steps (`s.length + 1` suffices, since each
step either consumes the match or advances one character). -/
def findAllGo (re : RE) : Nat → List Char → List String
  | 0, _ => []
  | _ + 1, [] => []
  | f + 1, c :: rest =>
    match reMatchF (matchFuel (c :: rest)) re (c :: rest) with
    | [] => findAllGo re f rest
    | t :: _ =>
      if t.length < (c :: rest).length then
        String.mk ((c :: rest).take ((c :: rest).length - t.length)) :: findAllGo re f t
      else
        findAllGo re f rest

/-- `re.findall(pattern, text)` for a groupless pattern: the list of matched
substrings, leftmost first, non-overlapping. -/
def reFindAll (re : RE) (text : String) : List String :=
  findAllGo re (text.length + 1) text.data

/-- Single-character literal. -/
def chr (c : Char) : RE := RE.cls fun x => x == c

/-- The class `[a-zA-Z0-9.\-_]` of the UPI pattern. -/
def isUpiChar (c : Char) : Bool :=
  c.isAlpha || c.isDigit || c == '.' || c == '-' || c == '_'

/-- `\w` on the ASCII inputs this service handles: `[a-zA-Z0-9_]`. -/
def isWordChar (c : Char) : Bool := c.isAlpha || c.isDigit || c == '_'

/-- `[\da-fA-F]`. -/
def isHexChar (c : Char) : Bool :=
  c.isDigit || ('a' ≤ c && c ≤ 'f') || ('A' ≤ c && c ≤ 'F')

/-- ASCII `\s`: space, tab, newline, carriage return, vertical tab, form feed. -/
def isSpaceChar (c : Char) : Bool :=
  c == ' ' || c == '\t' || c == '\n' || c == '\r' || c == '\x0b' || c == '\x0c'

/-- src/agent.py line 46: `[a-zA-Z0-9.\-_]\x7b2,256\x7d@[a-zA-Z]\x7b2,64\x7d`. -/
def upi_pattern : RE :=
  RE.seq (RE.rep (RE.cls isUpiChar) 2 256)
    (RE.seq (chr '@') (RE.rep (RE.cls Char.isAlpha) 2 64))

/-- One repeated element of the URL pattern: `(?:[-\w.]|(?:%[\da-fA-F]\x7b2\x7d))`. -/
def urlBodyElem : RE :=
  RE.alt (RE.cls fun c => c == '-' || isWordChar c || c == '.')
    (RE.seq (chr '%') (RE.seq (RE.cls isHexChar) (RE.cls isHexChar)))

/-- src/agent.py line 49: `https?://(?:[-\w.]|(?:%[\da-fA-F]\x7b2\x7d))+`.
The unbounded `+` is represented with an upper bound of `n`; passing the
input length makes it exact, since each element consumes at least one
character. -/
def url_pattern (n : Nat) : RE :=
  RE.seq (chr 'h') (RE.seq (chr 't') (RE.seq (chr 't') (RE.seq (chr 'p')
    (RE.seq (RE.alt (chr 's') RE.eps)
      (RE.seq (chr ':') (RE.seq (chr '/') (RE.seq (chr '/')
        (RE.rep urlBodyElem 1 n))))))))

/-- src/agent.py line 52: `(?:\+91[\-\s]?)?[6-9]\d\x7b9\x7d`. -/
def phone_pattern : RE :=
  RE.seq
    (RE.alt
      (RE.seq (chr '+') (RE.seq (chr '9') (RE.seq (chr '1')
        (RE.alt (RE.cls fun c => c == '-' || isSpaceChar c) RE.eps))))
      RE.eps)
    (RE.seq (RE.cls fun c => '6' ≤ c && c ≤ '9') (RE.rep (RE.cls Char.isDigit) 9 9))

/-- src/agent.py lines 41-62: `extract_intelligence` — three independent
`re.findall` scans over the whole text. -/
def extract_intelligence (text : String) : Intel :=
  { upiIds := reFindAll upi_pattern text
    phishingLinks := reFindAll (url_pattern (text.length + 1)) text
    phoneNumbers := reFindAll phone_pattern text }

/-- src/agent.py line 85. -/
def scam_keywords : List String :=
  ["urgent", "pay", "verify", "block", "expired", "kyc", "winner", "prize", "otp"]

/-- `needle` is an initial segment of `hay`. -/
def leadsList : List Char → List Char → Bool
  | [], _ => true
  | _ :: _, [] => false
  | a :: as, b :: bs => a == b && leadsList as bs

/-- `needle` occurs contiguously somewhere in `hay`. -/
def occursIn (needle : List Char) : List Char → Bool
  | [] => leadsList needle []
  | hay@(_ :: rest) => leadsList needle hay || occursIn needle rest

/-- Python `needle in hay` on strings: substring test. -/
def strContains (hay needle : String) : Bool := occursIn needle.data hay.data

/-- Python `str.lower()` (ASCII fragment): lower-case every character. -/
def pyLower (s : String) : String := String.mk (s.data.map Char.toLower)

/-- src/agent.py line 82: the canned deflection used when the LLM call raises. -/
def llmFallbackReply : String := "Oh dear, my internet seems slow. Can you say that again?"

/-- src/agent.py lines 66-97: the `generate_reply` node. The LLM invocation
(line 79) is a collaborator boundary: `llm_response` is its outcome, with
`Except.error` modelling a raised exception (caught at lines 81-82). The
scoring (lines 84-95) starts from 10, adds 20 per vocabulary keyword found
in the lower-cased latest input, and caps the result at 95. -/
def generate_reply (llm_response : Except String String)
    (latest_user_input : String) : String × Int :=
  let content :=
    match llm_response with
    | Except.ok c => c
    | Except.error _ => llmFallbackReply
  let text_lower := pyLower latest_user_input
  let score : Int :=
    scam_keywords.foldl (fun acc word => if strContains text_lower word then acc + 20 else acc) 10
  let final_score := min score 95
  (content, final_score)

/-- src/agent.py lines 109-128: `process_message` — extract intelligence from
the user text, run the single-node graph (`generate_reply`), and return the
reply, the score and the intelligence. The history list only feeds the LLM
prompt, so it does not affect the embedded result. -/
def process_message (llm_response : Except String String) (user_text : String)
    (history : List String) : String × Int × Intel :=
  let _ := history
  let intel := extract_intelligence user_text
  let rs := generate_reply llm_response user_text
  (rs.1, rs.2, intel)

/-! ## Helper lemmas -/

/-- The keyword loop of the scorer computes 20 times the number of matching
keywords, added to the initial accumulator. -/
theorem foldl_score_eq (t : String) :
    ∀ (l : List String) (a : Int),
      l.foldl (fun acc word => if strContains t word then acc + 20 else acc) a
        = a + 20 * (((l.filter fun word => strContains t word).length : Nat) : Int) := by
  intro l
  induction l with
  | nil => intro a; simp
  | cons w l ih =>
    intro a
    simp only [List.foldl_cons, List.filter_cons]
    cases hb : strContains t w with
    | false => simp only [Bool.false_eq_true, if_false, ih]
    | true =>
      simp only [if_true, ih, List.length_cons]
      push_cast
      ring

/-- Closed form of the score produced by `generate_reply`: 10 plus 20 per
vocabulary keyword occurring in the lower-cased input, clamped at 95. -/
theorem generate_reply_score_eq (r : Except String String) (t : String) :
    (generate_reply r t).2
      = min (10 + 20 * (((scam_keywords.filter fun word =>
          strContains (pyLower t) word).length : Nat) : Int)) 95 := by
  show min (scam_keywords.foldl
      (fun acc word => if strContains (pyLower t) word then acc + 20 else acc) 10) 95 = _
  rw [foldl_score_eq]

/-! ## Claim theorems -/

/-- Claim C1, counterexample: the claim says the resolved text is never the
empty string and that the handler never raises; but the payload
`\x7b"message": ""\x7d` resolves to the empty text, and a body parsed to JSON
null makes the handler raise (the `data.get` call on a non-dict). -/
theorem normalizer_empty_text_counterexample :
    resolveUserText [("message", Json.str "")] = Json.str ""
    ∧ universal_handler none (some Json.null) true (Except.error "boom")
        = Except.error "AttributeError: object has no attribute get" :=
  ⟨rfl, rfl⟩

/-- Claim C1, amended: an unparseable body degrades to the empty object; every
object body yields a response without raising; the resolved text falls back to
`"Hello"` when neither a `message` nor a `text` key is present; but a body
parsed to non-object JSON (e.g. null) makes the handler raise. -/
theorem normalizer_defaults_amended :
    (∀ (k : Option String) (a : Bool) (r : Except String (String × Int × Intel)),
        universal_handler k none a r = universal_handler k (some (Json.obj [])) a r)
    ∧ (∀ (k : Option String) (a : Bool) (r : Except String (String × Int × Intel))
          (fields : List (String × Json)),
        ∃ resp, universal_handler k (some (Json.obj fields)) a r = Except.ok resp)
    ∧ (∀ fields, hasKey fields "message" = false → hasKey fields "text" = false →
        resolveUserText fields = Json.str "Hello")
    ∧ (∀ (k : Option String) (a : Bool) (r : Except String (String × Int × Intel)),
        universal_handler k (some Json.null) a r
          = Except.error "AttributeError: object has no attribute get") := by
  refine ⟨fun k a r => rfl, fun k a r fields => ⟨_, rfl⟩, ?_, fun k a r => rfl⟩
  intro fields h1 h2
  unfold resolveUserText
  cases hm : dictGet fields "message" with
  | some v => simp [hasKey, hm] at h1
  | none =>
    cases ht : dictGet fields "text" with
    | some v => simp [hasKey, ht] at h2
    | none => rfl

/-- Witness for the amended claim C1 at a concrete payload without message or
text fields. -/
theorem normalizer_defaults_amended_witness :
    resolveUserText [("sessionId", Json.str "abc")] = Json.str "Hello" :=
  normalizer_defaults_amended.2.2.1 [("sessionId", Json.str "abc")] rfl rfl

/-- Claim C2, counterexample: the claim says a payload whose only text-bearing
field is `user_input` resolves to that value; the code resolves it to
`"Hello"`, because only `message` and `text` are ever consulted. -/
theorem text_precedence_counterexample :
    resolveUserText [("user_input", Json.str "pay me fast")] = Json.str "Hello" := rfl

/-- Claim C2, amended: the text resolution equals the precedence chain
message.text (message a dict; default Hello) → message itself (message a
string) → Hello (message of any other type) → top-level text (message key
absent) → default Hello; `user_input` and `content` are never consulted. -/
theorem text_precedence_amended (fields : List (String × Json)) :
    resolveUserText fields = amendedTextChain fields := by
  unfold resolveUserText amendedTextChain firstSomeJson extractorMessage extractorText
  cases hm : dictGet fields "message" with
  | some v => cases v <;> rfl
  | none =>
    cases ht : dictGet fields "text" with
    | some v => simp [firstSomeJson, ht]
    | none => simp [firstSomeJson, ht]

/-- Claim C3, counterexample: on the example input the URL pattern stops at
the first `/` after the host (the slash is outside `[-\w.]`), so the link
captured is "http://bit.ly", not "http://bit.ly/x" as claimed. -/
theorem extract_example_link_counterexample :
    (extract_intelligence "contact me at 9876543210 or ramu@paytm or http://bit.ly/x").phishingLinks
      = ["http://bit.ly"] := by decide

/-- Claim C3, amended: the example input yields phone number "9876543210",
payment handle "ramu@paytm", and link "http://bit.ly". -/
theorem extract_example_amended :
    extract_intelligence "contact me at 9876543210 or ramu@paytm or http://bit.ly/x"
      = ⟨["ramu@paytm"], ["http://bit.ly"], ["9876543210"]⟩ := by decide

/-- Claim C4: for every input text and any LLM outcome the score lies in
[10, 95], and it is exactly 95 whenever at least five distinct vocabulary
keywords occur in the lower-cased input. -/
theorem score_range_and_saturation (r : Except String String) (t : String) :
    10 ≤ (generate_reply r t).2 ∧ (generate_reply r t).2 ≤ 95
    ∧ (5 ≤ (scam_keywords.filter fun word => strContains (pyLower t) word).length →
        (generate_reply r t).2 = 95) := by
  rw [generate_reply_score_eq]
  exact ⟨le_min (by omega) (by omega), min_le_right _ _,
    fun h5 => min_eq_right (by omega)⟩

/-- Witness for claim C4 at a text containing five distinct keywords. -/
theorem score_range_and_saturation_witness :
    10 ≤ (generate_reply (Except.ok "x") "urgent pay verify block expired").2
    ∧ (generate_reply (Except.ok "x") "urgent pay verify block expired").2 ≤ 95
    ∧ (generate_reply (Except.ok "x") "urgent pay verify block expired").2 = 95 :=
  ⟨(score_range_and_saturation (Except.ok "x") "urgent pay verify block expired").1,
   (score_range_and_saturation (Except.ok "x") "urgent pay verify block expired").2.1,
   (score_range_and_saturation (Except.ok "x") "urgent pay verify block expired").2.2
     (by decide)⟩

/-- Claim C5: the score is 10 plus 20 per vocabulary keyword occurring in the
lower-cased input (each keyword counted once however often it repeats),
clamped at 95; in particular the score of "please pay urgent otp now" is 70. -/
theorem score_additive_formula :
    (∀ (r : Except String String) (t : String),
      (generate_reply r t).2
        = min (10 + 20 * (((scam_keywords.filter fun word =>
            strContains (pyLower t) word).length : Nat) : Int)) 95)
    ∧ (generate_reply (Except.ok "x") "please pay urgent otp now").2 = 70 :=
  ⟨generate_reply_score_eq, by decide⟩

/-- Claim C6: a job whose score is below 10 is skipped — the reporter returns
with no payload built and no network delivery. -/
theorem callback_skips_low_score (sid : Json) (tm : Nat) (intel : Intel)
    (score : Int) (notes : String) (h : score < 10) :
    send_callback_task sid tm intel score notes = none := by
  simp [send_callback_task, h]

/-- Witness for claim C6 at score 5. -/
theorem callback_skips_low_score_witness :
    send_callback_task (Json.str "s") 1 emptyIntel 5 "note" = none :=
  callback_skips_low_score (Json.str "s") 1 emptyIntel 5 "note" (by decide)

/-- Claim C7, counterexample: the claim bounds `agentNotes` by 50 characters,
but with score 70 and a 60-character reply the delivered `agentNotes`
("Score: 70. Reply: " followed by 50 kept characters) has length 68. -/
theorem agent_notes_length_counterexample :
    (send_callback_task (Json.str "s") 1 emptyIntel 70
        (String.mk (List.replicate 60 'a'))).map (fun p => p.agentNotes.length)
      = some 68 ∧ 50 < 68 :=
  ⟨rfl, by decide⟩

/-- Claim C7, amended: in every delivered report the reply portion embedded in
`agentNotes` is truncated to at most 50 characters, but `agentNotes` itself is
the string "Score: ⟨score⟩. Reply: ⟨truncated reply⟩", which can exceed 50
characters in total. -/
theorem agent_notes_truncation_amended (sid : Json) (tm : Nat) (intel : Intel)
    (score : Int) (notes : String) (h : ¬ score < 10) :
    (send_callback_task sid tm intel score notes).map (fun p => p.agentNotes)
      = some ("Score: " ++ toString score ++ ". Reply: " ++ String.mk (notes.data.take 50))
    ∧ (String.mk (notes.data.take 50)).length ≤ 50 := by
  constructor
  · simp [send_callback_task, h]
  · show (notes.data.take 50).length ≤ 50
    rw [List.length_take]
    exact min_le_left _ _

/-- Witness for the amended claim C7 at a concrete delivered job. -/
theorem agent_notes_truncation_amended_witness :
    (send_callback_task (Json.str "s") 1 emptyIntel 70 "hello").map (fun p => p.agentNotes)
      = some ("Score: " ++ toString (70 : Int) ++ ". Reply: " ++ String.mk ("hello".data.take 50))
    ∧ (String.mk ("hello".data.take 50)).length ≤ 50 :=
  agent_notes_truncation_amended (Json.str "s") 1 emptyIntel 70 "hello" (by decide)

/-- Claim C8: when the LLM collaborator fails, `generate_reply` substitutes
the fixed non-empty deflection line instead of propagating the failure, so the
pipeline and the handler return that non-empty reply for every input. -/
theorem llm_failure_fallback_reply (e u : String) (hist : List String)
    (k : Option String) (fields : List (String × Json)) :
    (process_message (Except.error e) u hist).1
        = "Oh dear, my internet seems slow. Can you say that again?"
    ∧ (process_message (Except.error e) u hist).1 ≠ ""
    ∧ (universal_handler k (some (Json.obj fields)) true
          (Except.ok (process_message (Except.error e) u hist))).map (fun resp => resp.reply)
        = Except.ok "Oh dear, my internet seems slow. Can you say that again?" := by
  refine ⟨rfl, ?_, rfl⟩
  show "Oh dear, my internet seems slow. Can you say that again?" ≠ ""
  decide

/-- Claim C9: the response and the queued report job do not depend on the
caller-supplied API key in any way — the key comparison only emits a log line. -/
theorem handler_ignores_api_key (k1 k2 : Option String) (body : Option Json)
    (agent_active : Bool) (agent_result : Except String (String × Int × Intel)) :
    universal_handler k1 body agent_active agent_result
      = universal_handler k2 body agent_active agent_result := rfl

/-- Claim C10: every delivered report carries the constant suspicious-keyword
list ["urgent", "pay"] and the constant empty bank-account list, whatever the
message, score and extracted intelligence were. -/
theorem report_constant_keywords (sid : Json) (tm : Nat) (intel : Intel)
    (score : Int) (notes : String) (h : ¬ score < 10) :
    (send_callback_task sid tm intel score notes).map
        (fun p => (p.suspiciousKeywords, p.bankAccounts))
      = some (["urgent", "pay"], ([] : List String)) := by
  simp [send_callback_task, h]

/-- Witness for claim C10 at a concrete delivered job. -/
theorem report_constant_keywords_witness :
    (send_callback_task (Json.str "s") 1 emptyIntel 70 "note").map
        (fun p => (p.suspiciousKeywords, p.bankAccounts))
      = some (["urgent", "pay"], ([] : List String)) :=
  report_constant_keywords (Json.str "s") 1 emptyIntel 70 "note" (by decide)

end Honeypot
